import Mathlib

/-!
Shallow embedding of `src/vs/workbench/api/common/extHostNotebookKernels.ts`.

The source is a single class, `ExtHostNotebookKernels`, that owns a registry
of notebook kernel controllers.  Each controller is a closure capturing a
mutable DTO, a disposed flag, a token pool used to coalesce metadata updates
into one `$updateKernel` per scheduling turn, the execute/interrupt handler
references and a set of associated notebooks.  The registry maps integer
handles to records and dispatches inbound calls from the main thread.

Modelling conventions:
* JS mutable state becomes explicit state passing over `CtrlState` (the
  per-controller closure variables) and `Registry` (the class fields).
* Calls that cross the process boundary (`$addKernel`, `$updateKernel`, ...),
  emitter firings and console output are recorded in an append-only `log`.
* The external collaborators declared opaque by the spec (notebook document
  resolution, cell lookup, execution-task factory, editor resolution) are a
  structure of functions, `Env`.
* Handlers are modelled by their observable behaviour at this boundary: an
  execute handler is the default warn-only handler or a custom handler that
  either returns or throws; an interrupt handler is characterised by whether
  it throws.  Microtask continuations scheduled by `_update` are a list of
  captured tokens; running them at the end of the turn is `flushUpdates`.
-/

namespace ExtHostNotebookKernels

/-- Extension description: the fields of `IExtensionDescription` this file
reads (`identifier.value`, `displayName`, `name`, `extensionLocation`). -/
structure ExtensionDescription where
  identifier : String
  displayName : Option String
  name : String
  extensionLocation : String
deriving Repr, DecidableEq

/-- Modelled from the spec: `ExtensionIdentifier.equals` is defined outside
this file; the spec treats the extension identity as an opaque identity that
records match on ("matching (extensionIdentity, id)"). -/
def extensionIdEquals (a b : String) : Bool := a == b

/-- The serialisable metadata snapshot `INotebookKernelDto2` built at line 60
and mutated by the controller setters. -/
structure NotebookKernelDto where
  id : String
  viewType : String
  extensionId : String
  extensionLocation : String
  label : String
  detail : Option String := none
  description : Option String := none
  supportedLanguages : Option (List String) := none
  hasExecutionOrder : Option Bool := none
  preloads : List String := []
  supportsInterrupt : Option Bool := none
deriving Repr, DecidableEq

/-- The value held by the `_executeHandler` closure variable.  In JS the
variable could in principle hold `undefined`; the code keeps it populated via
`handler ?? _defaultExecutHandler` (line 70) and `value ?? _defaultExecutHandler`
(line 145).  A custom handler is characterised by whether it throws when
invoked. -/
inductive ExecHandlerVal where
  | undef
  | defaultHandler
  | custom (throws : Bool)
deriving Repr, DecidableEq

/-- The closure state of one controller created by `createNotebookController`:
the `id` parameter, the extension fields the closure reads, the DTO, the
`isDisposed` flag, the `tokenPool` counter, the scheduled (not yet run)
update continuations as their captured tokens, the two handler references and
the `associatedNotebooks` resource map (a set of notebook uri keys, every
stored value being `true`). -/
structure CtrlState where
  rawId : String
  extensionId : String
  extDisplayName : Option String
  extName : String
  data : NotebookKernelDto
  isDisposed : Bool
  tokenPool : Nat
  pending : List Nat
  executeHandler : ExecHandlerVal
  interruptHandler : Option Bool
  associatedNotebooks : List String
deriving Repr, DecidableEq

/-- Observable effects: proxy calls, emitter firings, console output, handler
invocations and per-cell cancellation requests. -/
inductive LogEntry where
  | addKernel (handle : Nat) (dto : NotebookKernelDto)
  | updateKernel (handle : Nat) (dto : NotebookKernelDto)
  | removeKernel (handle : Nat)
  | postMessage (handle : Nat) (editorId : Option String)
  | selectionChanged (handle : Nat) (selected : Bool) (uri : String)
  | messageFired (handle : Nat) (editorId : String)
  | execInvoked (handle : Nat) (cells : List Nat) (uri : String)
  | interruptInvoked (handle : Nat) (uri : String)
  | cancelRequested (cellHandle : Nat)
  | warnLogged
  | errorLogged
  | logLogged
deriving Repr, DecidableEq

/-- A notebook document as seen through `getNotebookDocument`: its uri and the
handles of the cells that currently exist (`document.getCell`). -/
structure NotebookDoc where
  uri : String
  cells : List Nat
deriving Repr, DecidableEq

/-- An API cell as passed to `createNotebookCellExecutionTask`: its `index`
(negative once removed from its notebook) and its notebook's uri. -/
structure ApiCell where
  index : Int
  notebookUri : String
deriving Repr, DecidableEq

/-- The external collaborators the spec declares opaque: notebook document
resolution, cell resolution from an API cell, the execution-task factory and
editor resolution. -/
structure Env where
  getDoc : String → NotebookDoc
  getCellFromApiCell : NotebookDoc → ApiCell → Option Nat
  createExecution : Nat → Nat
  getEditorById : String → Option String
  getIdByEditor : String → String

/-- `_update` (lines 84-94): when not disposed, pre-increment `tokenPool` and
schedule a continuation capturing the new token. -/
def _update (st : CtrlState) : CtrlState :=
  if st.isDisposed then st
  else { st with tokenPool := st.tokenPool + 1, pending := st.pending ++ [st.tokenPool + 1] }

/-- One synchronous metadata setter call on the controller object.  The label
setter takes an optional value because its default chain
`value ?? extension.displayName ?? extension.name` handles a nullish value;
the interrupt-handler setter also flips `data.supportsInterrupt`. -/
inductive SetterOp where
  | setLabel (value : Option String)
  | setDetail (value : String)
  | setDescription (value : String)
  | setSupportedLanguages (value : List String)
  | setHasExecutionOrder (value : Bool)
  | setInterruptHandler (value : Option Bool)
deriving Repr, DecidableEq

/-- The setters at lines 106-154: each writes into the DTO and calls `_update`. -/
def applySetter (op : SetterOp) (st : CtrlState) : CtrlState :=
  match op with
  | .setLabel v =>
      _update { st with data := { st.data with label := v.getD (st.extDisplayName.getD st.extName) } }
  | .setDetail v => _update { st with data := { st.data with detail := some v } }
  | .setDescription v => _update { st with data := { st.data with description := some v } }
  | .setSupportedLanguages v =>
      _update { st with data := { st.data with supportedLanguages := some v } }
  | .setHasExecutionOrder v =>
      _update { st with data := { st.data with hasExecutionOrder := some v } }
  | .setInterruptHandler v =>
      _update { st with interruptHandler := v, data := { st.data with supportsInterrupt := some v.isSome } }

/-- A synchronous sequence of setter calls within one turn. -/
def applySetters : List SetterOp → CtrlState → CtrlState
  | [], st => st
  | op :: ops, st => applySetters ops (applySetter op st)

/-- Running the microtask continuations scheduled by `_update` at the end of
the turn: each continuation fires `$updateKernel(handle, data)` exactly when
its captured token still equals the current `tokenPool` (lines 89-93). -/
def flushUpdates (handle : Nat) (st : CtrlState) : List LogEntry :=
  st.pending.filterMap fun t =>
    if t = st.tokenPool then some (LogEntry.updateKernel handle st.data) else none

/-- The executeHandler setter (lines 144-146): `value ?? _defaultExecutHandler`. -/
def setExecuteHandler (value : Option Bool) (st : CtrlState) : CtrlState :=
  { st with executeHandler := match value with
      | some t => ExecHandlerVal.custom t
      | none => ExecHandlerVal.defaultHandler }

/-- The registry fields of the class: all controller closures ever created
(closures outlive deregistration), the handles currently present in
`_kernelData`, the `_handlePool` counter and the effect log. -/
structure Registry where
  controllers : List (Nat × CtrlState)
  registered : List Nat
  handlePool : Nat
  log : List LogEntry
deriving Repr, DecidableEq

/-- Access to a controller closure by handle (the closure itself, independent
of whether the record is still in `_kernelData`). -/
def lookupCtrl : List (Nat × CtrlState) → Nat → Option CtrlState
  | [], _ => none
  | (k, st) :: rest, h => if k = h then some st else lookupCtrl rest h

/-- Replace the closure state stored for a handle. -/
def setCtrlList : List (Nat × CtrlState) → Nat → CtrlState → List (Nat × CtrlState)
  | [], _, _ => []
  | (k, st) :: rest, h, st1 =>
      if k = h then (k, st1) :: rest else (k, st) :: setCtrlList rest h st1

def setCtrl (reg : Registry) (h : Nat) (st : CtrlState) : Registry :=
  { reg with controllers := setCtrlList reg.controllers h st }

def addLog (reg : Registry) (es : List LogEntry) : Registry :=
  { reg with log := reg.log ++ es }

/-- Apply a closure-level mutation (setter, etc.) to a controller by handle. -/
def ctrlApply (reg : Registry) (h : Nat) (f : CtrlState → CtrlState) : Registry :=
  match lookupCtrl reg.controllers h with
  | some st => setCtrl reg h (f st)
  | none => reg

/-- `this._kernelData.get(handle)` (the registry record lookup used by every
inbound dispatch method). -/
def kernelDataGet (reg : Registry) (h : Nat) : Option CtrlState :=
  if h ∈ reg.registered then lookupCtrl reg.controllers h else none

/-- The duplicate scan at lines 43-47: over `_kernelData.values()`, match
`data.controller.id === id && ExtensionIdentifier.equals(...)`. -/
def hasDuplicate (reg : Registry) (extId id : String) : Bool :=
  reg.registered.any fun h =>
    match lookupCtrl reg.controllers h with
    | some st => st.rawId == id && extensionIdEquals extId st.extensionId
    | none => false

/-- The DTO built at lines 60-67; `label || extension.identifier.value` makes
an empty label default to the extension identifier value. -/
def initialDto (ext : ExtensionDescription) (id viewType label : String)
    (preloads : List String) : NotebookKernelDto :=
  { id := ext.identifier ++ "/" ++ id
    viewType := viewType
    extensionId := ext.identifier
    extensionLocation := ext.extensionLocation
    label := if label == "" then ext.identifier else label
    preloads := preloads }

/-- The closure state of a freshly created controller (lines 49-97): not
disposed, token pool zero, nothing scheduled, `handler ?? _defaultExecutHandler`,
no interrupt handler, no associated notebooks. -/
def initialCtrlState (ext : ExtensionDescription) (id viewType label : String)
    (handler : Option Bool) (preloads : List String) : CtrlState :=
  { rawId := id
    extensionId := ext.identifier
    extDisplayName := ext.displayName
    extName := ext.name
    data := initialDto ext id viewType label preloads
    isDisposed := false
    tokenPool := 0
    pending := []
    executeHandler := match handler with
      | some t => ExecHandlerVal.custom t
      | none => ExecHandlerVal.defaultHandler
    interruptHandler := none
    associatedNotebooks := [] }

/-- `createNotebookController` (lines 41-204): duplicate scan, handle
allocation, DTO construction, asynchronous `$addKernel`, record stored. -/
def createNotebookController (reg : Registry) (ext : ExtensionDescription)
    (id viewType label : String) (handler : Option Bool) (preloads : List String) :
    Except String (Registry × Nat) :=
  if hasDuplicate reg ext.identifier id then
    .error ("notebook controller with id " ++ id ++ " ALREADY exist")
  else
    let handle := reg.handlePool
    let st := initialCtrlState ext id viewType label handler preloads
    .ok ({ controllers := reg.controllers ++ [(handle, st)]
           registered := reg.registered ++ [handle]
           handlePool := handle + 1
           log := reg.log ++ [LogEntry.addKernel handle st.data] }, handle)

/-- Whether a create call threw the duplicate error. -/
def isCreateError (r : Except String (Registry × Nat)) : Bool :=
  match r with
  | .error _ => true
  | .ok _ => false

def markDisposed (st : CtrlState) : CtrlState := { st with isDisposed := true }

/-- The `catch` attached to `$addKernel` (lines 74-78): log the error and set
`isDisposed = true`.  The record is not removed from `_kernelData`. -/
def addKernelRejected (reg : Registry) (handle : Nat) : Registry :=
  match lookupCtrl reg.controllers handle with
  | none => reg
  | some st => addLog (setCtrl reg handle (markDisposed st)) [LogEntry.logLogged]

/-- `dispose` (lines 172-181): if not already disposed, mark disposed, delete
the record from `_kernelData` and notify `$removeKernel`. -/
def disposeController (reg : Registry) (handle : Nat) : Registry :=
  match lookupCtrl reg.controllers handle with
  | none => reg
  | some st =>
    if st.isDisposed then reg
    else
      let reg1 := setCtrl reg handle (markDisposed st)
      { reg1 with
        registered := reg1.registered.erase handle
        log := reg1.log ++ [LogEntry.removeKernel handle] }

/-- `postMessage` (lines 184-186): forwards to the proxy unconditionally, the
disposed flag is not consulted. -/
def postMessage (env : Env) (reg : Registry) (handle : Nat) (editor : Option String) :
    Registry :=
  addLog reg [LogEntry.postMessage handle (editor.map env.getIdByEditor)]

/-- The distinct errors thrown by `createNotebookCellExecutionTask`. -/
inductive ExecTaskError where
  | cellRemoved
  | disposed
  | notAssociated
  | invalidCell
deriving Repr, DecidableEq

/-- `createNotebookCellExecutionTask` (lines 155-171): four precondition
checks in order, then delegation to `createNotebookCellExecution`. -/
def createNotebookCellExecutionTask (env : Env) (st : CtrlState) (cell : ApiCell) :
    Except ExecTaskError Nat :=
  if cell.index < 0 then .error .cellRemoved
  else if st.isDisposed then .error .disposed
  else if cell.notebookUri ∈ st.associatedNotebooks then
    match env.getCellFromApiCell (env.getDoc cell.notebookUri) cell with
    | none => .error .invalidCell
    | some cellObj => .ok (env.createExecution cellObj)
  else .error .notAssociated

/-- `ResourceMap.set(uri, true)`: insert the key if absent (the stored value
is always `true`, so overwriting an existing key changes nothing). -/
def insertUri (u : String) (l : List String) : List String :=
  if u ∈ l then l else l ++ [u]

/-- The `associatedNotebooks` update of `$acceptNotebookAssociation`:
`set(uri, true)` when associating, `delete(uri)` when dissociating. -/
def assocAfter (value : Bool) (uriKey : String) (l : List String) : List String :=
  if value then insertUri uriKey l else l.erase uriKey

/-- `$acceptNotebookAssociation` (lines 206-222): silent no-op on an absent
record; otherwise update `associatedNotebooks` keyed by the resolved
document's uri and fire the selection-changed emitter. -/
def acceptNotebookAssociation (env : Env) (reg : Registry) (handle : Nat)
    (uri : String) (value : Bool) : Registry :=
  match kernelDataGet reg handle with
  | none => reg
  | some st =>
    let nb := env.getDoc uri
    let st1 :=
      { st with associatedNotebooks := assocAfter value nb.uri st.associatedNotebooks }
    addLog (setCtrl reg handle st1) [LogEntry.selectionChanged handle value nb.uri]

/-- Invoking the current execute handler inside the `try` at lines 239-244:
a callable handler is invoked with the surviving cells and the document; the
default handler only warns; a throwing handler's exception is caught and
logged (`console.error`).  Calling an `undefined` handler would itself throw
inside the `try` and be caught. -/
def invokeExecHandler (h : ExecHandlerVal) (handle : Nat) (cells : List Nat)
    (uri : String) : List LogEntry :=
  match h with
  | .undef => [LogEntry.errorLogged]
  | .defaultHandler => [LogEntry.execInvoked handle cells uri, LogEntry.warnLogged]
  | .custom throws =>
    if throws then [LogEntry.execInvoked handle cells uri, LogEntry.errorLogged]
    else [LogEntry.execInvoked handle cells uri]

/-- `$executeCells` (lines 224-245).  The second component reports whether an
exception propagated to the caller; the handler call is wrapped in
`try/catch`, so it never does. -/
def executeCells (env : Env) (reg : Registry) (handle : Nat) (uri : String)
    (handles : List Nat) : Registry × Bool :=
  match kernelDataGet reg handle with
  | none => (reg, false)
  | some st =>
    let doc := env.getDoc uri
    let cells := handles.filter fun h => doc.cells.contains h
    (addLog reg (invokeExecHandler st.executeHandler handle cells doc.uri), false)

/-- The per-cell cancellation loop at lines 259-264: one
`cancelOneNotebookCellExecution` per requested cell handle that still
resolves in the document. -/
def cancelEntries (env : Env) (uri : String) (handles : List Nat) : List LogEntry :=
  (handles.filter fun h => (env.getDoc uri).cells.contains h).map LogEntry.cancelRequested

/-- `$cancelCells` (lines 247-265): silent no-op on an absent record; if an
interrupt handler is registered it is awaited first (its rejection is not
caught and propagates, skipping the loop); then one cancellation request per
still-live cell.  The second component reports whether an exception
propagated. -/
def cancelCells (env : Env) (reg : Registry) (handle : Nat) (uri : String)
    (handles : List Nat) : Registry × Bool :=
  match kernelDataGet reg handle with
  | none => (reg, false)
  | some st =>
    let doc := env.getDoc uri
    match st.interruptHandler with
    | none => (addLog reg (cancelEntries env uri handles), false)
    | some throws =>
      if throws then (addLog reg [LogEntry.interruptInvoked handle doc.uri], true)
      else (addLog reg ([LogEntry.interruptInvoked handle doc.uri] ++ cancelEntries env uri handles), false)

/-- `$acceptKernelMessageFromRenderer` (lines 267-280): silent no-op on an
absent record (the editor is never resolved in that case); otherwise resolve
the editor, throw for an unknown editor, else fire the message emitter.  The
second component reports whether the unknown-editor error was thrown. -/
def acceptKernelMessageFromRenderer (env : Env) (reg : Registry) (handle : Nat)
    (editorId : String) : Registry × Bool :=
  match kernelDataGet reg handle with
  | none => (reg, false)
  | some _ =>
    match env.getEditorById editorId with
    | none => (reg, true)
    | some _ => (addLog reg [LogEntry.messageFired handle editorId], false)

/-! Concrete fixtures used by witnesses and counterexamples. -/

/-- A small concrete collaborator environment: every uri resolves to a
document whose only live cell has handle 0; an API cell with index 0 resolves
to cell object 7; only editor id "ed" resolves. -/
def env0 : Env :=
  { getDoc := fun u => { uri := u, cells := [0] }
    getCellFromApiCell := fun _ c => if c.index = 0 then some 7 else none
    createExecution := fun n => n + 1
    getEditorById := fun e => if e = "ed" then some e else none
    getIdByEditor := fun e => e }

def ext0 : ExtensionDescription :=
  { identifier := "pub.ext", displayName := some "Fancy", name := "ext"
    extensionLocation := "loc" }

def ext1 : ExtensionDescription :=
  { identifier := "other.ext", displayName := none, name := "other"
    extensionLocation := "loc2" }

def emptyRegistry : Registry :=
  { controllers := [], registered := [], handlePool := 0, log := [] }

/-- Registry after creating one controller (extension `ext0`, id "k"). -/
def cexReg1 : Registry :=
  match createNotebookController emptyRegistry ext0 "k" "vt" "L" none [] with
  | .ok (r, _) => r
  | .error _ => emptyRegistry

/-- `cexReg1` after the remote `$addKernel` for handle 0 was rejected. -/
def cexReg2 : Registry := addKernelRejected cexReg1 0

/-- `cexReg1` after the controller for handle 0 was disposed. -/
def cexRegD : Registry := disposeController cexReg1 0

/-- `cexReg1` after the extension registered a throwing interrupt handler. -/
def cexRegI : Registry :=
  ctrlApply cexReg1 0 (applySetter (SetterOp.setInterruptHandler (some true)))

/-- `cexReg1` after the host associated notebook "other" with handle 0. -/
def cexRegA : Registry := acceptNotebookAssociation env0 cexReg1 0 "other" true

/-- `cexRegA` after associating then dissociating notebook "nb". -/
def cexRegB : Registry := acceptNotebookAssociation env0 cexRegA 0 "nb" true

def cexRegC : Registry := acceptNotebookAssociation env0 cexRegB 0 "nb" false

/-- Registry after creating one controller with an empty label. -/
def cexRegE : Registry :=
  match createNotebookController emptyRegistry ext0 "k" "vt" "" none [] with
  | .ok (r, _) => r
  | .error _ => emptyRegistry

/-- Registry after creating one controller whose execute handler throws. -/
def cexRegT : Registry :=
  match createNotebookController emptyRegistry ext0 "k" "vt" "L" (some true) [] with
  | .ok (r, _) => r
  | .error _ => emptyRegistry

/-- `cexReg1` after the extension registered a returning interrupt handler. -/
def cexRegJ : Registry :=
  ctrlApply cexReg1 0 (applySetter (SetterOp.setInterruptHandler (some false)))

/-- The closure state of the controller stored in `cexReg1`. -/
def stBase : CtrlState := initialCtrlState ext0 "k" "vt" "L" none []

/-- `stBase` with notebook "nb" associated. -/
def stAssoc : CtrlState := { stBase with associatedNotebooks := ["nb"] }

def stDisposed : CtrlState := markDisposed stBase

/-- The closure state of the controller stored in `cexRegJ`. -/
def stJ : CtrlState := applySetter (SetterOp.setInterruptHandler (some false)) stBase

/-- The claim's predicate for C2, written from its words: some live
(non-disposed, still-registered) record matches (extension identity, id). -/
def existsLiveDuplicate (reg : Registry) (extId id : String) : Bool :=
  reg.registered.any fun h =>
    match lookupCtrl reg.controllers h with
    | some st => !st.isDisposed && st.rawId == id && extensionIdEquals extId st.extensionId
    | none => false

/-- Modelled from the spec: the "extension display value" that the spec says
an empty label defaults to.  The display value of an extension is its
`displayName`, falling back to `name` (the chain the label setter's default
uses); the definition follows the spec's words for comparison with
`initialDto`. -/
def extensionDisplayValue (ext : ExtensionDescription) : String :=
  ext.displayName.getD ext.name

/-! Helper lemmas about the coalescing machinery. -/

theorem applySetter_shape (op : SetterOp) (st : CtrlState) (h : st.isDisposed = false) :
    (applySetter op st).isDisposed = false ∧
    (applySetter op st).tokenPool = st.tokenPool + 1 ∧
    (applySetter op st).pending = st.pending ++ [st.tokenPool + 1] := by
  cases op <;> simp [applySetter, _update, h]

theorem applySetters_shape (ops : List SetterOp) (st : CtrlState)
    (h : st.isDisposed = false) :
    (applySetters ops st).isDisposed = false ∧
    (applySetters ops st).tokenPool = st.tokenPool + ops.length ∧
    (applySetters ops st).pending = st.pending ++ List.range' (st.tokenPool + 1) ops.length := by
  induction ops generalizing st with
  | nil => simpa [applySetters] using h
  | cons op ops ih =>
    obtain ⟨h1, h2, h3⟩ := applySetter_shape op st h
    obtain ⟨g1, g2, g3⟩ := ih (applySetter op st) h1
    refine ⟨g1, ?_, ?_⟩
    · show (applySetters ops (applySetter op st)).tokenPool = st.tokenPool + (ops.length + 1)
      rw [g2, h2]; omega
    · show (applySetters ops (applySetter op st)).pending
        = st.pending ++ List.range' (st.tokenPool + 1) (ops.length + 1)
      rw [g3, h3, h2, List.append_assoc]
      rfl

theorem filterMap_last_token (n s : Nat) (x : LogEntry) :
    (List.range' s (n + 1)).filterMap
      (fun t => if t = s + n then some x else none) = [x] := by
  induction n generalizing s with
  | zero => simp [List.range']
  | succ m ih =>
    have h1 : List.range' s (m + 2) = s :: List.range' (s + 1) (m + 1) := rfl
    rw [h1, List.filterMap_cons]
    have hne : ¬(s = s + (m + 1)) := by omega
    rw [if_neg hne]
    have h2 : s + (m + 1) = (s + 1) + m := by omega
    rw [h2]
    exact ih (s + 1)

/-- Claim C1: starting from a non-disposed controller with no continuation
pending, any nonempty synchronous sequence of metadata setter calls results,
once the scheduled microtask continuations run, in exactly one `$updateKernel`
proxy call, and it carries the DTO state as of the last setter; the stale
continuations (captured token below the final token) contribute nothing. -/
theorem metadata_setters_coalesce_once (st : CtrlState) (handle : Nat)
    (ops : List SetterOp) (hd : st.isDisposed = false) (hp : st.pending = [])
    (hne : ops ≠ []) :
    flushUpdates handle (applySetters ops st)
      = [LogEntry.updateKernel handle (applySetters ops st).data] := by
  obtain ⟨h1, h2, h3⟩ := applySetters_shape ops st hd
  unfold flushUpdates
  rw [h3, hp, List.nil_append, h2]
  obtain ⟨m, hm⟩ : ∃ m, ops.length = m + 1 := by
    cases ops with
    | nil => exact absurd rfl hne
    | cons a l => exact ⟨l.length, rfl⟩
  rw [hm]
  have hshift : st.tokenPool + (m + 1) = (st.tokenPool + 1) + m := by omega
  rw [hshift]
  exact filterMap_last_token m (st.tokenPool + 1) _

/-- Witness for C1 at a concrete controller and two setter calls. -/
theorem metadata_setters_coalesce_once_witness :
    (initialCtrlState ext0 "k" "vt" "L" none []).isDisposed = false ∧
    (initialCtrlState ext0 "k" "vt" "L" none []).pending = [] ∧
    [SetterOp.setLabel (some "A"), SetterOp.setDetail "d"] ≠ ([] : List SetterOp) ∧
    flushUpdates 0 (applySetters [SetterOp.setLabel (some "A"), SetterOp.setDetail "d"]
        (initialCtrlState ext0 "k" "vt" "L" none []))
      = [LogEntry.updateKernel 0 (applySetters
          [SetterOp.setLabel (some "A"), SetterOp.setDetail "d"]
          (initialCtrlState ext0 "k" "vt" "L" none [])).data] :=
  ⟨rfl, rfl, by decide,
    metadata_setters_coalesce_once _ 0 _ rfl rfl (by decide)⟩

/-! Claim C2: duplicate-controller check. -/

theorem hasDuplicate_iff (reg : Registry) (extId id : String) :
    hasDuplicate reg extId id = true ↔
    ∃ h, h ∈ reg.registered ∧ ∃ st, lookupCtrl reg.controllers h = some st ∧
      st.rawId = id ∧ extensionIdEquals extId st.extensionId = true := by
  unfold hasDuplicate
  rw [List.any_eq_true]
  constructor
  · rintro ⟨h, hmem, hp⟩
    refine ⟨h, hmem, ?_⟩
    cases hl : lookupCtrl reg.controllers h with
    | none => rw [hl] at hp; cases hp
    | some st =>
      rw [hl] at hp
      rw [Bool.and_eq_true] at hp
      exact ⟨st, rfl, by simpa using hp.1, hp.2⟩
  · rintro ⟨h, hmem, st, hl, h1, h2⟩
    refine ⟨h, hmem, ?_⟩
    rw [hl, Bool.and_eq_true]
    exact ⟨by simpa using h1, h2⟩

/-- Claim C2 (amended): `createNotebookController` throws the duplicate error
exactly when some still-registered record — disposed or not — has the same
controller id and extension identity.  `dispose()` removes the record, so the
(extension, id) pair may be reused after it; but a record marked disposed by a
rejected `$addKernel` stays registered and still blocks the pair (see the
counterexample). -/
theorem createNotebookController_duplicate_registered_iff (reg : Registry)
    (ext : ExtensionDescription) (id vt lbl : String) (handler : Option Bool)
    (preloads : List String) :
    isCreateError (createNotebookController reg ext id vt lbl handler preloads) = true ↔
    ∃ h, h ∈ reg.registered ∧ ∃ st, lookupCtrl reg.controllers h = some st ∧
      st.rawId = id ∧ extensionIdEquals ext.identifier st.extensionId = true := by
  rw [← hasDuplicate_iff reg ext.identifier id]
  cases hdup : hasDuplicate reg ext.identifier id with
  | true => simp [createNotebookController, isCreateError, hdup]
  | false => simp [createNotebookController, isCreateError, hdup]

/-- Counterexample to C2 as stated: after the remote `$addKernel` for handle 0
was rejected, the record is disposed yet still registered.  No live
(non-disposed, still-registered) record matches (pub.ext, k), and the sole
record for the pair is disposed — yet creating (pub.ext, k) again throws, so
both "throws iff some live record matches" and "after a controller is disposed
its pair may be reused" fail on this state. -/
theorem createNotebookController_live_duplicate_cex :
    existsLiveDuplicate cexReg2 ext0.identifier "k" = false ∧
    (lookupCtrl cexReg2.controllers 0).map (fun st => st.isDisposed) = some true ∧
    0 ∈ cexReg2.registered ∧
    isCreateError (createNotebookController cexReg2 ext0 "k" "vt" "L" none []) = true := by
  decide

/-! Claim C3: rejected remote registration. -/

theorem lookupCtrl_setCtrlList_self (l : List (Nat × CtrlState)) (h : Nat)
    (st st1 : CtrlState) (hl : lookupCtrl l h = some st) :
    lookupCtrl (setCtrlList l h st1) h = some st1 := by
  induction l with
  | nil => simp [lookupCtrl] at hl
  | cons p rest ih =>
    obtain ⟨k, s⟩ := p
    by_cases hk : k = h
    · simp [lookupCtrl, setCtrlList, hk]
    · simp only [lookupCtrl, setCtrlList, if_neg hk] at hl ⊢
      exact ih hl

theorem applySetter_disposed (op : SetterOp) (st : CtrlState)
    (h : st.isDisposed = true) :
    (applySetter op st).pending = st.pending ∧
    (applySetter op st).isDisposed = true := by
  cases op <;> simp [applySetter, _update, h]

theorem applySetters_disposed (ops : List SetterOp) (st : CtrlState)
    (h : st.isDisposed = true) :
    (applySetters ops st).pending = st.pending := by
  induction ops generalizing st with
  | nil => rfl
  | cons op ops ih =>
    obtain ⟨h1, h2⟩ := applySetter_disposed op st h
    show (applySetters ops (applySetter op st)).pending = st.pending
    rw [ih (applySetter op st) h2, h1]

/-- Claim C3 (amended): a rejected `$addKernel` never surfaces to the caller
of `createNotebookController` — it is a separate later event that only logs
the error and flips the disposed flag.  The record is marked disposed post hoc
but remains registered.  Afterwards no metadata setter schedules a remote
update (`_update` is guarded by the flag), `dispose()` is a no-op, and
`createNotebookCellExecutionTask` throws the disposed error; but not every
operation on the returned handle is a no-op: `postMessage` still forwards to
the proxy unconditionally. -/
theorem addKernelRejected_spec (env : Env) (reg : Registry) (handle : Nat)
    (st : CtrlState) (hl : lookupCtrl reg.controllers handle = some st) :
    (addKernelRejected reg handle).registered = reg.registered ∧
    lookupCtrl (addKernelRejected reg handle).controllers handle
      = some (markDisposed st) ∧
    (∀ ops, (applySetters ops (markDisposed st)).pending = (markDisposed st).pending) ∧
    disposeController (addKernelRejected reg handle) handle = addKernelRejected reg handle ∧
    (∀ cell : ApiCell, 0 ≤ cell.index →
      createNotebookCellExecutionTask env (markDisposed st) cell
        = .error ExecTaskError.disposed) ∧
    (∀ e, (postMessage env (addKernelRejected reg handle) handle e).log
      = (addKernelRejected reg handle).log
          ++ [LogEntry.postMessage handle (e.map env.getIdByEditor)]) := by
  have hlook : lookupCtrl (addKernelRejected reg handle).controllers handle
      = some (markDisposed st) := by
    simp only [addKernelRejected, hl, addLog, setCtrl]
    exact lookupCtrl_setCtrlList_self _ _ _ _ hl
  refine ⟨?_, hlook, ?_, ?_, ?_, ?_⟩
  · simp [addKernelRejected, hl, addLog, setCtrl]
  · intro ops; exact applySetters_disposed ops _ rfl
  · unfold disposeController
    rw [hlook]
    simp [markDisposed]
  · intro cell hc
    unfold createNotebookCellExecutionTask
    rw [if_neg (not_lt.mpr hc)]
    simp [markDisposed]
  · intro e; rfl

/-- Witness for C3 at the concrete rejected registration of handle 0. -/
theorem addKernelRejected_spec_witness :
    lookupCtrl cexReg1.controllers 0 = some stBase ∧
    (addKernelRejected cexReg1 0).registered = cexReg1.registered ∧
    lookupCtrl (addKernelRejected cexReg1 0).controllers 0 = some (markDisposed stBase) ∧
    createNotebookCellExecutionTask env0 (markDisposed stBase) ⟨0, "nb"⟩
      = .error ExecTaskError.disposed ∧
    disposeController (addKernelRejected cexReg1 0) 0 = addKernelRejected cexReg1 0 := by
  refine ⟨by decide, ?_, ?_, ?_, ?_⟩
  · exact (addKernelRejected_spec env0 cexReg1 0 stBase (by decide)).1
  · exact (addKernelRejected_spec env0 cexReg1 0 stBase (by decide)).2.1
  · exact (addKernelRejected_spec env0 cexReg1 0 stBase (by decide)).2.2.2.2.1 ⟨0, "nb"⟩ (by decide)
  · exact (addKernelRejected_spec env0 cexReg1 0 stBase (by decide)).2.2.2.1

/-- Counterexample to C3 as stated: after the rejected registration the
controller is disposed, yet `postMessage` on its handle is not a no-op — it
still appends a `$postMessage` proxy call. -/
theorem addKernelRejected_postMessage_not_noop_cex :
    (lookupCtrl cexReg2.controllers 0).map (fun st => st.isDisposed) = some true ∧
    (postMessage env0 cexReg2 0 none).log ≠ cexReg2.log ∧
    (postMessage env0 cexReg2 0 none).log
      = cexReg2.log ++ [LogEntry.postMessage 0 none] := by
  decide

/-! Claim C4: execution-task creation preconditions. -/

/-- Claim C4: `createNotebookCellExecutionTask` fails with a distinct error
for each precondition, checked independently in this order — removed cell
(negative index), disposed controller, unassociated notebook, unresolvable
cell — and otherwise delegates to the external execution-task collaborator
and returns its result. -/
theorem createNotebookCellExecutionTask_preconditions (env : Env) (st : CtrlState)
    (cell : ApiCell) :
    (cell.index < 0 →
      createNotebookCellExecutionTask env st cell = .error ExecTaskError.cellRemoved) ∧
    (0 ≤ cell.index → st.isDisposed = true →
      createNotebookCellExecutionTask env st cell = .error ExecTaskError.disposed) ∧
    (0 ≤ cell.index → st.isDisposed = false →
      cell.notebookUri ∉ st.associatedNotebooks →
      createNotebookCellExecutionTask env st cell = .error ExecTaskError.notAssociated) ∧
    (0 ≤ cell.index → st.isDisposed = false →
      cell.notebookUri ∈ st.associatedNotebooks →
      env.getCellFromApiCell (env.getDoc cell.notebookUri) cell = none →
      createNotebookCellExecutionTask env st cell = .error ExecTaskError.invalidCell) ∧
    (∀ c, 0 ≤ cell.index → st.isDisposed = false →
      cell.notebookUri ∈ st.associatedNotebooks →
      env.getCellFromApiCell (env.getDoc cell.notebookUri) cell = some c →
      createNotebookCellExecutionTask env st cell = .ok (env.createExecution c)) := by
  refine ⟨?_, ?_, ?_, ?_, ?_⟩
  · intro h0
    unfold createNotebookCellExecutionTask
    rw [if_pos h0]
  · intro h0 hd
    unfold createNotebookCellExecutionTask
    rw [if_neg (not_lt.mpr h0)]
    simp [hd]
  · intro h0 hd hm
    unfold createNotebookCellExecutionTask
    rw [if_neg (not_lt.mpr h0)]
    simp [hd, hm]
  · intro h0 hd hm hc
    unfold createNotebookCellExecutionTask
    rw [if_neg (not_lt.mpr h0)]
    simp [hd, hm, hc]
  · intro c h0 hd hm hc
    unfold createNotebookCellExecutionTask
    rw [if_neg (not_lt.mpr h0)]
    simp [hd, hm, hc]

/-- Witness for C4: the four failure scenarios and the success scenario at
concrete states and cells. -/
theorem createNotebookCellExecutionTask_preconditions_witness :
    createNotebookCellExecutionTask env0 stAssoc ⟨-1, "nb"⟩
      = .error ExecTaskError.cellRemoved ∧
    createNotebookCellExecutionTask env0 stDisposed ⟨0, "nb"⟩
      = .error ExecTaskError.disposed ∧
    createNotebookCellExecutionTask env0 stBase ⟨0, "nb"⟩
      = .error ExecTaskError.notAssociated ∧
    createNotebookCellExecutionTask env0 stAssoc ⟨1, "nb"⟩
      = .error ExecTaskError.invalidCell ∧
    createNotebookCellExecutionTask env0 stAssoc ⟨0, "nb"⟩ = .ok 8 := by
  refine ⟨?_, ?_, ?_, ?_, ?_⟩
  · exact (createNotebookCellExecutionTask_preconditions env0 stAssoc ⟨-1, "nb"⟩).1
      (by decide)
  · exact (createNotebookCellExecutionTask_preconditions env0 stDisposed ⟨0, "nb"⟩).2.1
      (by decide) (by decide)
  · exact (createNotebookCellExecutionTask_preconditions env0 stBase ⟨0, "nb"⟩).2.2.1
      (by decide) (by decide) (by decide)
  · exact (createNotebookCellExecutionTask_preconditions env0 stAssoc ⟨1, "nb"⟩).2.2.2.1
      (by decide) (by decide) (by decide) (by decide)
  · exact (createNotebookCellExecutionTask_preconditions env0 stAssoc ⟨0, "nb"⟩).2.2.2.2
      7 (by decide) (by decide) (by decide) (by decide)

/-! Claim C5: execute dispatch never raises. -/

/-- Claim C5: `$executeCells` never raises to its caller; an absent handle is
a silent no-op; for a live handle the current execute handler is invoked with
exactly the cell handles that still resolve in the document (missing ones are
skipped), and a throwing handler's exception is caught and logged with no
controller or registry state changed — only the log grows. -/
theorem executeCells_spec (env : Env) (reg : Registry) (handle : Nat)
    (uri : String) (handles : List Nat) :
    (executeCells env reg handle uri handles).2 = false ∧
    (kernelDataGet reg handle = none →
      (executeCells env reg handle uri handles).1 = reg) ∧
    (∀ st, kernelDataGet reg handle = some st →
      ((executeCells env reg handle uri handles).1.controllers = reg.controllers ∧
       (executeCells env reg handle uri handles).1.registered = reg.registered ∧
       (executeCells env reg handle uri handles).1.handlePool = reg.handlePool) ∧
      (executeCells env reg handle uri handles).1.log
        = reg.log ++ invokeExecHandler st.executeHandler handle
            (handles.filter fun h => (env.getDoc uri).cells.contains h)
            (env.getDoc uri).uri ∧
      (st.executeHandler = ExecHandlerVal.custom true →
        (executeCells env reg handle uri handles).1.log
          = reg.log ++ [LogEntry.execInvoked handle
              (handles.filter fun h => (env.getDoc uri).cells.contains h)
              (env.getDoc uri).uri,
              LogEntry.errorLogged])) := by
  cases hk : kernelDataGet reg handle with
  | none =>
    refine ⟨?_, fun _ => ?_, fun st hst => ?_⟩
    · simp [executeCells, hk]
    · simp [executeCells, hk]
    · cases hst
  | some st0 =>
    refine ⟨?_, fun hn => ?_, fun st hst => ?_⟩
    · simp [executeCells, hk]
    · cases hn
    · injection hst with hst
      subst hst
      refine ⟨⟨?_, ?_, ?_⟩, ?_, ?_⟩
      · simp [executeCells, hk, addLog]
      · simp [executeCells, hk, addLog]
      · simp [executeCells, hk, addLog]
      · simp [executeCells, hk, addLog]
      · intro hcustom
        simp [executeCells, hk, addLog, hcustom, invokeExecHandler]

/-- Witness for C5: a live controller whose custom execute handler throws,
dispatched with one surviving and one missing cell handle. -/
theorem executeCells_spec_witness :
    kernelDataGet cexRegT 0 = some (initialCtrlState ext0 "k" "vt" "L" (some true) []) ∧
    (executeCells env0 cexRegT 0 "u" [0, 5]).2 = false ∧
    (executeCells env0 cexRegT 0 "u" [0, 5]).1.registered = cexRegT.registered ∧
    (executeCells env0 cexRegT 0 "u" [0, 5]).1.log
      = cexRegT.log ++ [LogEntry.execInvoked 0 [0] "u", LogEntry.errorLogged] := by
  refine ⟨by decide, (executeCells_spec env0 cexRegT 0 "u" [0, 5]).1, ?_, ?_⟩
  · exact (((executeCells_spec env0 cexRegT 0 "u" [0, 5]).2.2
      (initialCtrlState ext0 "k" "vt" "L" (some true) []) (by decide)).1).2.1
  · exact ((executeCells_spec env0 cexRegT 0 "u" [0, 5]).2.2
      (initialCtrlState ext0 "k" "vt" "L" (some true) []) (by decide)).2.2 (by decide)

/-! Claim C6: cancel dispatch. -/

/-- Claim C6 (amended): `$cancelCells` on an absent handle is a silent no-op.
On a live handle the registered interrupt handler (if any) is invoked exactly
once, regardless of how many cell handles are passed; when it returns
normally — or when none is registered — one cancellation request is issued
per cell handle that still resolves to a live cell (zero for missing ones),
independently of the interrupt call.  The code does not catch an exception
thrown by the interrupt handler: its rejection propagates out of the dispatch
and the per-cell cancellation loop is skipped. -/
theorem cancelCells_dispatch_spec (env : Env) (reg : Registry) (handle : Nat)
    (uri : String) (handles : List Nat) :
    (kernelDataGet reg handle = none →
      cancelCells env reg handle uri handles = (reg, false)) ∧
    (∀ st, kernelDataGet reg handle = some st →
      (st.interruptHandler = none →
        cancelCells env reg handle uri handles
          = (addLog reg (cancelEntries env uri handles), false)) ∧
      (st.interruptHandler = some false →
        cancelCells env reg handle uri handles
          = (addLog reg ([LogEntry.interruptInvoked handle (env.getDoc uri).uri]
              ++ cancelEntries env uri handles), false)) ∧
      (st.interruptHandler = some true →
        cancelCells env reg handle uri handles
          = (addLog reg [LogEntry.interruptInvoked handle (env.getDoc uri).uri], true))) := by
  cases hk : kernelDataGet reg handle with
  | none =>
    refine ⟨fun _ => ?_, fun st hst => ?_⟩
    · simp [cancelCells, hk]
    · cases hst
  | some st0 =>
    refine ⟨fun hn => ?_, fun st hst => ?_⟩
    · cases hn
    · injection hst with hst
      subst hst
      refine ⟨fun hi => ?_, fun hi => ?_, fun hi => ?_⟩
      · simp [cancelCells, hk, hi]
      · simp [cancelCells, hk, hi]
      · simp [cancelCells, hk, hi]

/-- Witness for C6: a live controller with a returning interrupt handler,
dispatched with one surviving and one missing cell handle — the interrupt
handler fires once and exactly one cancellation request is issued. -/
theorem cancelCells_dispatch_spec_witness :
    kernelDataGet cexRegJ 0 = some stJ ∧
    cancelCells env0 cexRegJ 0 "u" [0, 5]
      = (addLog cexRegJ ([LogEntry.interruptInvoked 0 "u"]
          ++ cancelEntries env0 "u" [0, 5]), false) ∧
    cancelEntries env0 "u" [0, 5] = [LogEntry.cancelRequested 0] := by
  refine ⟨by decide, ?_, by decide⟩
  exact ((cancelCells_dispatch_spec env0 cexRegJ 0 "u" [0, 5]).2 stJ (by decide)).2.1
    (by decide)

/-- Counterexample to C6 as stated: a live controller whose interrupt handler
throws.  Cell handle 0 still resolves to a live cell, yet the dispatch issues
zero cancellation requests (the rejection propagates and skips the loop),
where the claim requires exactly one per still-live cell handle. -/
theorem cancelCells_interrupt_throw_cex :
    (lookupCtrl cexRegI.controllers 0).map (fun st => st.interruptHandler)
      = some (some true) ∧
    (env0.getDoc "u").cells.contains 0 = true ∧
    (cancelCells env0 cexRegI 0 "u" [0]).2 = true ∧
    (cancelCells env0 cexRegI 0 "u" [0]).1.log.count (LogEntry.cancelRequested 0) = 0 := by
  decide

/-! Claim C7: renderer message dispatch. -/

/-- Claim C7 (amended): `$acceptKernelMessageFromRenderer` checks the handle
first: for an absent record (e.g. a disposed controller) it returns silently
without ever resolving the editor.  Only for a live handle does it resolve the
editor identity, throwing the unknown-editor error exactly when the editor id
cannot be resolved and otherwise firing the message emitter with the
{editor, message} pair. -/
theorem acceptKernelMessageFromRenderer_spec (env : Env) (reg : Registry)
    (handle : Nat) (editorId : String) :
    (kernelDataGet reg handle = none →
      acceptKernelMessageFromRenderer env reg handle editorId = (reg, false)) ∧
    (∀ st, kernelDataGet reg handle = some st →
      (env.getEditorById editorId = none →
        acceptKernelMessageFromRenderer env reg handle editorId = (reg, true)) ∧
      (∀ e, env.getEditorById editorId = some e →
        acceptKernelMessageFromRenderer env reg handle editorId
          = (addLog reg [LogEntry.messageFired handle editorId], false))) := by
  cases hk : kernelDataGet reg handle with
  | none =>
    refine ⟨fun _ => ?_, fun st hst => ?_⟩
    · simp [acceptKernelMessageFromRenderer, hk]
    · cases hst
  | some st0 =>
    refine ⟨fun hn => ?_, fun st hst => ?_⟩
    · cases hn
    · refine ⟨fun he => ?_, fun e he => ?_⟩
      · simp [acceptKernelMessageFromRenderer, hk, he]
      · simp [acceptKernelMessageFromRenderer, hk, he]

/-- Witness for C7: on a live handle an unresolvable editor raises the
unknown-editor error, and a resolvable editor fires the message emitter. -/
theorem acceptKernelMessageFromRenderer_spec_witness :
    kernelDataGet cexReg1 0 = some stBase ∧
    acceptKernelMessageFromRenderer env0 cexReg1 0 "ghost" = (cexReg1, true) ∧
    acceptKernelMessageFromRenderer env0 cexReg1 0 "ed"
      = (addLog cexReg1 [LogEntry.messageFired 0 "ed"], false) := by
  refine ⟨by decide, ?_, ?_⟩
  · exact ((acceptKernelMessageFromRenderer_spec env0 cexReg1 0 "ghost").2 stBase
      (by decide)).1 (by decide)
  · exact ((acceptKernelMessageFromRenderer_spec env0 cexReg1 0 "ed").2 stBase
      (by decide)).2 "ed" (by decide)

/-- Counterexample to C7 as stated: handle 0 was disposed, so its record is
absent; editor id "ghost" cannot be resolved, yet the dispatch returns
silently with no unknown-editor error — the editor is never resolved for an
absent handle, contradicting "raises an unknown-editor error exactly when the
editor id cannot be resolved, for every handle including absent ones". -/
theorem acceptKernelMessage_absent_handle_cex :
    kernelDataGet cexRegD 0 = none ∧
    env0.getEditorById "ghost" = none ∧
    acceptKernelMessageFromRenderer env0 cexRegD 0 "ghost" = (cexRegD, false) := by
  decide

/-! Claim C8: association toggling. -/

theorem kernelDataGet_eq_some (reg : Registry) (h : Nat) (st : CtrlState)
    (hk : kernelDataGet reg h = some st) :
    h ∈ reg.registered ∧ lookupCtrl reg.controllers h = some st := by
  unfold kernelDataGet at hk
  by_cases hm : h ∈ reg.registered
  · rw [if_pos hm] at hk; exact ⟨hm, hk⟩
  · rw [if_neg hm] at hk; cases hk

theorem mem_insertUri (x u : String) (l : List String) :
    x ∈ insertUri u l ↔ x = u ∨ x ∈ l := by
  unfold insertUri
  by_cases h : u ∈ l
  · rw [if_pos h]
    constructor
    · exact Or.inr
    · rintro (rfl | hx)
      · exact h
      · exact hx
  · rw [if_neg h, List.mem_append, List.mem_singleton, or_comm]

theorem insertUri_erase (u : String) (l : List String) :
    (insertUri u l).erase u = l.erase u := by
  unfold insertUri
  by_cases h : u ∈ l
  · rw [if_pos h]
  · rw [if_neg h, List.erase_append_right [u] h, List.erase_cons_head]
    rw [List.erase_of_not_mem h, List.append_nil]

theorem acceptNotebookAssociation_step (env : Env) (reg : Registry) (handle : Nat)
    (uri : String) (v : Bool) (st : CtrlState)
    (hst : kernelDataGet reg handle = some st) :
    kernelDataGet (acceptNotebookAssociation env reg handle uri v) handle
      = some
        { st with associatedNotebooks := assocAfter v (env.getDoc uri).uri st.associatedNotebooks } ∧
    (acceptNotebookAssociation env reg handle uri v).log
      = reg.log ++ [LogEntry.selectionChanged handle v (env.getDoc uri).uri] ∧
    (acceptNotebookAssociation env reg handle uri v).registered = reg.registered := by
  obtain ⟨hm, hl⟩ := kernelDataGet_eq_some reg handle st hst
  have hdef : acceptNotebookAssociation env reg handle uri v
      = addLog
          (setCtrl reg handle
            { st with associatedNotebooks := assocAfter v (env.getDoc uri).uri st.associatedNotebooks })
          [LogEntry.selectionChanged handle v (env.getDoc uri).uri] := by
    unfold acceptNotebookAssociation
    rw [hst]
  rw [hdef]
  refine ⟨?_, rfl, rfl⟩
  show (if handle ∈ reg.registered then
      lookupCtrl (setCtrlList reg.controllers handle _) handle else none) = _
  rw [if_pos hm]
  exact lookupCtrl_setCtrlList_self _ _ _ _ hl

/-- Claim C8 (amended): on a live handle, dispatching association true then
false for a notebook uri removes that uri from `associatedNotebooks` — in
particular the set is left empty whenever it was empty beforehand, e.g. for a
freshly created controller (it is not emptied wholesale: associations to
other notebooks survive, see the counterexample) — and fires the
selection-changed event exactly twice, first with selected = true, then with
selected = false.  In general `associatedNotebooks` reflects exactly the most
recent association event per notebook: insert-or-overwrite on true, remove on
false, no implicit expiry. -/
theorem acceptNotebookAssociation_toggle_spec (env : Env) (reg : Registry)
    (handle : Nat) (uri : String) (st : CtrlState)
    (hst : kernelDataGet reg handle = some st)
    (huri : (env.getDoc uri).uri = uri)
    (hnd : st.associatedNotebooks.Nodup) :
    (∃ st2, kernelDataGet (acceptNotebookAssociation env
          (acceptNotebookAssociation env reg handle uri true) handle uri false) handle
        = some st2 ∧
      st2.associatedNotebooks = st.associatedNotebooks.erase uri ∧
      (st.associatedNotebooks = [] → st2.associatedNotebooks = [])) ∧
    (acceptNotebookAssociation env
        (acceptNotebookAssociation env reg handle uri true) handle uri false).log
      = reg.log ++ [LogEntry.selectionChanged handle true uri,
          LogEntry.selectionChanged handle false uri] ∧
    (∀ v : Bool, ∃ st1,
      kernelDataGet (acceptNotebookAssociation env reg handle uri v) handle = some st1 ∧
      ∀ u2, u2 ∈ st1.associatedNotebooks ↔
        (if u2 = uri then v = true else u2 ∈ st.associatedNotebooks)) := by
  obtain ⟨hk1, hl1, hr1⟩ := acceptNotebookAssociation_step env reg handle uri true st hst
  rw [huri] at hk1 hl1
  obtain ⟨hk2, hl2, hr2⟩ := acceptNotebookAssociation_step env
    (acceptNotebookAssociation env reg handle uri true) handle uri false _ hk1
  rw [huri] at hk2 hl2
  refine ⟨⟨_, hk2, ?_, ?_⟩, ?_, ?_⟩
  · show (insertUri uri st.associatedNotebooks).erase uri = st.associatedNotebooks.erase uri
    exact insertUri_erase uri st.associatedNotebooks
  · intro h0
    show (insertUri uri st.associatedNotebooks).erase uri = []
    rw [insertUri_erase, h0]
    rfl
  · rw [hl2, hl1, List.append_assoc]
    rfl
  · intro v
    obtain ⟨hk, _, _⟩ := acceptNotebookAssociation_step env reg handle uri v st hst
    rw [huri] at hk
    refine ⟨_, hk, fun u2 => ?_⟩
    cases v with
    | false =>
      show u2 ∈ st.associatedNotebooks.erase uri ↔ _
      by_cases hu : u2 = uri
      · rw [if_pos hu, List.Nodup.mem_erase_iff hnd]
        simp [hu]
      · rw [if_neg hu, List.Nodup.mem_erase_iff hnd]
        simp [hu]
    | true =>
      show u2 ∈ insertUri uri st.associatedNotebooks ↔ _
      by_cases hu : u2 = uri
      · rw [if_pos hu, mem_insertUri]
        simp [hu]
      · rw [if_neg hu, mem_insertUri]
        simp [hu]

/-- Witness for C8 at a freshly created controller and notebook "nb". -/
theorem acceptNotebookAssociation_toggle_spec_witness :
    kernelDataGet cexReg1 0 = some stBase ∧
    (acceptNotebookAssociation env0 (acceptNotebookAssociation env0 cexReg1 0 "nb" true)
        0 "nb" false).log
      = cexReg1.log ++ [LogEntry.selectionChanged 0 true "nb",
          LogEntry.selectionChanged 0 false "nb"] ∧
    (∃ st2, kernelDataGet (acceptNotebookAssociation env0
          (acceptNotebookAssociation env0 cexReg1 0 "nb" true) 0 "nb" false) 0
        = some st2 ∧ st2.associatedNotebooks = []) := by
  have hthm := acceptNotebookAssociation_toggle_spec env0 cexReg1 0 "nb" stBase
    (by decide) rfl (by decide)
  refine ⟨by decide, hthm.2.1, ?_⟩
  obtain ⟨st2, ha, _, hc⟩ := hthm.1
  exact ⟨st2, ha, hc rfl⟩

/-- Counterexample to C8 as stated: a live controller already associated to
notebook "other"; toggling notebook "nb" on then off fires the two
selection-changed events but leaves `associatedNotebooks` = ["other"], not
empty — the toggle only removes the toggled uri. -/
theorem association_toggle_nonempty_cex :
    (kernelDataGet cexRegA 0).map (fun st => st.associatedNotebooks) = some ["other"] ∧
    cexRegC.log = cexRegA.log ++ [LogEntry.selectionChanged 0 true "nb",
        LogEntry.selectionChanged 0 false "nb"] ∧
    (kernelDataGet cexRegC 0).map (fun st => st.associatedNotebooks) = some ["other"] ∧
    (kernelDataGet cexRegC 0).map (fun st => st.associatedNotebooks) ≠ some [] := by
  decide

/-! Claim C9: empty-label default. -/

/-- Claim C9 (amended): when the supplied label is empty, the label stored in
the metadata DTO — both in the stored record and in the `$addKernel` push —
defaults to the extension's identifier value (`extension.identifier.value`),
not to its display name: `label || extension.identifier.value` at creation,
in contrast to the label setter's `value ?? displayName ?? name` chain. -/
theorem label_default_identifier_value (reg : Registry) (ext : ExtensionDescription)
    (id vt : String) (handler : Option Bool) (preloads : List String)
    (reg1 : Registry) (h : Nat)
    (hok : createNotebookController reg ext id vt "" handler preloads = .ok (reg1, h)) :
    reg1.log = reg.log ++ [LogEntry.addKernel h (initialDto ext id vt "" preloads)] ∧
    reg1.controllers
      = reg.controllers ++ [(h, initialCtrlState ext id vt "" handler preloads)] ∧
    (initialDto ext id vt "" preloads).label = ext.identifier := by
  unfold createNotebookController at hok
  by_cases hd : hasDuplicate reg ext.identifier id = true
  · rw [if_pos hd] at hok; cases hok
  · rw [if_neg hd] at hok
    injection hok with hok
    injection hok with hok1 hok2
    subst hok1
    subst hok2
    exact ⟨rfl, rfl, rfl⟩

/-- Witness for C9 at the concrete creation with an empty label. -/
theorem label_default_identifier_value_witness :
    createNotebookController emptyRegistry ext0 "k" "vt" "" none [] = .ok (cexRegE, 0) ∧
    cexRegE.controllers = [(0, initialCtrlState ext0 "k" "vt" "" none [])] ∧
    (initialDto ext0 "k" "vt" "" []).label = "pub.ext" := by
  refine ⟨rfl, ?_, ?_⟩
  · exact (label_default_identifier_value emptyRegistry ext0 "k" "vt" none [] cexRegE 0
      rfl).2.1
  · exact (label_default_identifier_value emptyRegistry ext0 "k" "vt" none [] cexRegE 0
      rfl).2.2

/-- Counterexample to C9 as stated: `ext0` has display value "Fancy" (its
display name), but creating a controller with an empty label stores "pub.ext"
— the identifier value — as the DTO label, not the display value. -/
theorem label_default_display_value_cex :
    (lookupCtrl cexRegE.controllers 0).map (fun st => st.data.label) = some "pub.ext" ∧
    extensionDisplayValue ext0 = "Fancy" ∧
    (lookupCtrl cexRegE.controllers 0).map (fun st => st.data.label)
      ≠ some (extensionDisplayValue ext0) := by
  decide

/-! Claim C10: the execute handler is never undefined. -/

theorem setExecuteHandler_ne_undef (v : Option Bool) (st : CtrlState) :
    (setExecuteHandler v st).executeHandler ≠ ExecHandlerVal.undef := by
  cases v <;> simp [setExecuteHandler]

theorem foldl_setExecuteHandler_ne_undef (ops : List (Option Bool)) (st : CtrlState)
    (h : st.executeHandler ≠ ExecHandlerVal.undef) :
    (ops.foldl (fun s v => setExecuteHandler v s) st).executeHandler
      ≠ ExecHandlerVal.undef := by
  induction ops generalizing st with
  | nil => simpa using h
  | cons v ops ih => exact ih (setExecuteHandler v st) (setExecuteHandler_ne_undef v st)

/-- Claim C10: after creation and any sequence of executeHandler assignments
(each assigning a custom handler or a nullish value), the stored execute
handler is never undefined: a nullish assignment — like an absent handler at
creation — installs the default handler, which when invoked only logs a
warning, so `$executeCells` always has a callable handler. -/
theorem executeHandler_never_undefined (ext : ExtensionDescription)
    (id vt lbl : String) (handler : Option Bool) (preloads : List String)
    (ops : List (Option Bool)) :
    (ops.foldl (fun s v => setExecuteHandler v s)
        (initialCtrlState ext id vt lbl handler preloads)).executeHandler
      ≠ ExecHandlerVal.undef ∧
    (handler = none →
      (initialCtrlState ext id vt lbl handler preloads).executeHandler
        = ExecHandlerVal.defaultHandler) ∧
    (∀ hdl cells uri, invokeExecHandler ExecHandlerVal.defaultHandler hdl cells uri
      = [LogEntry.execInvoked hdl cells uri, LogEntry.warnLogged]) := by
  refine ⟨?_, ?_, fun hdl cells uri => rfl⟩
  · apply foldl_setExecuteHandler_ne_undef
    cases handler <;> simp [initialCtrlState]
  · intro hnone
    subst hnone
    rfl

/-- Witness for C10: creation without a handler followed by two assignments,
the last nullish. -/
theorem executeHandler_never_undefined_witness :
    ([some true, none].foldl (fun s v => setExecuteHandler v s)
        (initialCtrlState ext0 "k" "vt" "L" none [])).executeHandler
      ≠ ExecHandlerVal.undef ∧
    (initialCtrlState ext0 "k" "vt" "L" none []).executeHandler
      = ExecHandlerVal.defaultHandler ∧
    invokeExecHandler ExecHandlerVal.defaultHandler 0 [0] "u"
      = [LogEntry.execInvoked 0 [0] "u", LogEntry.warnLogged] :=
  ⟨(executeHandler_never_undefined ext0 "k" "vt" "L" none [] [some true, none]).1,
   (executeHandler_never_undefined ext0 "k" "vt" "L" none [] []).2.1 rfl,
   (executeHandler_never_undefined ext0 "k" "vt" "L" none [] []).2.2 0 [0] "u"⟩

end ExtHostNotebookKernels
